import Mathlib

/-!
Verification development for the tele-claude concurrency and
session-coordination core.

The definitions below are a shallow embedding of the Python source:

* `make_session_key`        — src/core/types.py
* `dispatcher_init`, `enqueue`, `put_nowait`, `run_item`, `worker_drain`,
  `PoolState`, `PoolStep`   — src/dispatcher.py (EventDispatcher)
* `is_tool_allowed`, `resolve_permission`, `add_to_allowlist`
                            — src/session.py (permission broker)
* `handle_prompt`, `run_loop_body`, `run_loop_step`, `run_mailbox`
                            — src/core/session_actor.py (SessionActor)
* `coord_resolve_cwd`, `coord_create_session`, `route_trigger`
                            — src/core/dispatcher.py (Dispatcher)

Machine integers are modelled as `Int`/`Nat`; Python exceptions as an
explicit `PyErr` value threaded through `Except` or an `Option PyErr`
outcome slot; Python truthiness of optional strings/ints is made explicit.
External collaborators (command registry, the backend `start_claude_task`,
listener callbacks) are modelled as environment parameters carrying the
outcome of the call, exactly where the source calls out to them.
Wall-clock timestamp fields (`created_at`, `last_activity`, timing logs)
carry no logic in the source and are omitted.
-/

instance {ε α : Type} [DecidableEq ε] [DecidableEq α] : DecidableEq (Except ε α) := fun a b =>
  match a, b with
  | .ok x, .ok y => if h : x = y then .isTrue (by rw [h]) else .isFalse (by simp [h])
  | .error x, .error y => if h : x = y then .isTrue (by rw [h]) else .isFalse (by simp [h])
  | .ok _, .error _ => .isFalse (by simp)
  | .error _, .ok _ => .isFalse (by simp)

/-- Python exception values that the embedded code can raise. -/
inductive PyErr where
  | keyError (msg : String)
  | valueError (msg : String)
  | queueFull
  | other (msg : String)
deriving Repr, DecidableEq

/-- Python truthiness of an `Optional[str]`: `None` and `""` are falsy. -/
def py_truthy_str : Option String → Bool
  | none => false
  | some t => t ≠ ""

/-- Python truthiness of an `Optional[int]`: `None` and `0` are falsy. -/
def py_truthy_int : Option Int → Bool
  | none => false
  | some n => n ≠ 0

/-- Lookup in an association list, modelling a Python `dict.get`. -/
def dict_get {α : Type} (l : List (String × α)) (k : String) : Option α :=
  match l with
  | [] => none
  | (k2, v) :: rest => if k2 = k then some v else dict_get rest k

/-- Remove the entry for a key, modelling the removal half of `dict.pop`. -/
def dict_remove {α : Type} (l : List (String × α)) (k : String) : List (String × α) :=
  match l with
  | [] => []
  | (k2, v) :: rest => if k2 = k then rest else (k2, v) :: dict_remove rest k

/-! ## src/core/types.py -/

/-- The keyword ids accepted by `make_session_key` (`**ids` in the source). -/
structure SessionIds where
  chat_id : Option Int
  thread_id : Option Int
  channel_id : Option Int
deriving Repr, DecidableEq

/-- `make_session_key` from src/core/types.py.  `if thread_id:` is Python
truthiness, so a thread id of `0` falls through to the bare chat key. -/
def make_session_key (platform : String) (ids : SessionIds) : Except PyErr String :=
  if platform = "telegram" then
    match ids.chat_id with
    | none => .error (.keyError "chat_id")
    | some c =>
      match ids.thread_id with
      | some t =>
        if t ≠ 0 then .ok (s!"telegram:{c}:{t}")
        else .ok (s!"telegram:{c}")
      | none => .ok (s!"telegram:{c}")
  else if platform = "discord" then
    match ids.channel_id with
    | none => .error (.keyError "channel_id")
    | some ch => .ok (s!"discord:{ch}")
  else
    .error (.valueError (s!"Unknown platform: {platform}"))

/-- `Trigger` from src/core/types.py.  `reply_context` is an opaque dict;
the only key the core reads from it is `"cwd"`, modelled as an optional
string field. -/
structure Trigger where
  platform : String
  session_key : String
  prompt : String
  images : List String
  reply_context_cwd : Option String
  source : String
deriving Repr, DecidableEq

/-- `SessionStats` from src/core/types.py (timestamp fields omitted). -/
structure SessionStats where
  message_count : Nat
  turn_count : Nat
  interrupt_count : Nat
  error_count : Nat
deriving Repr, DecidableEq

/-! ## src/dispatcher.py — EventDispatcher -/

/-- `DispatchItem` from src/dispatcher.py.  The zero-argument coroutine
`coro` is modelled by the outcome of awaiting it (`none` = returned
normally, `some e` = raised `e`), and `on_drop` by whether the optional
callback is present. -/
structure DispatchItem where
  name : String
  session_id : Option Int
  work_exc : Option PyErr
  has_on_drop : Bool
deriving Repr, DecidableEq

/-- The three clamped configuration fields set by `EventDispatcher.__init__`. -/
structure DispatcherConfig where
  worker_count : Int
  max_queue_size : Int
  warn_queue_size : Int
deriving Repr, DecidableEq

/-- `EventDispatcher.__init__`: each size is clamped with `max(1, _)`. -/
def dispatcher_init (worker_count max_queue_size warn_queue_size : Int) : DispatcherConfig :=
  { worker_count := max 1 worker_count
    max_queue_size := max 1 max_queue_size
    warn_queue_size := max 1 warn_queue_size }

/-- Queue-visible state of an `EventDispatcher`: the bounded queue contents
and how many `on_drop` callbacks have been scheduled via `_schedule_drop`. -/
structure DispatcherState where
  config : DispatcherConfig
  queue : List DispatchItem
  drops_scheduled : Nat
deriving Repr, DecidableEq

/-- `asyncio.Queue.put_nowait` on a queue bounded by `max_queue_size`:
raises `QueueFull` exactly when the queue is at capacity. -/
def put_nowait (s : DispatcherState) (item : DispatchItem) : Except PyErr DispatcherState :=
  if (s.queue.length : Int) < s.config.max_queue_size then
    .ok { s with queue := s.queue ++ [item] }
  else
    .error .queueFull

/-- `EventDispatcher.enqueue`: tries `put_nowait`; on `QueueFull` the item
is dropped, `on_drop` (if provided) is scheduled exactly once, and `False`
is returned to the caller instead of an exception. -/
def enqueue (s : DispatcherState) (item : DispatchItem) : Bool × DispatcherState :=
  match put_nowait s item with
  | .ok s2 => (true, s2)
  | .error _ =>
    (false,
      { s with drops_scheduled := s.drops_scheduled + (if item.has_on_drop then 1 else 0) })

/-- Outcome of `EventDispatcher._run_item` for one item. -/
inductive ItemOutcome where
  | completed
  | failedCaught (e : PyErr)
deriving Repr, DecidableEq

/-- `EventDispatcher._run_item`: awaits the item's work; any exception is
caught and logged at this boundary. -/
def run_item (item : DispatchItem) : ItemOutcome :=
  match item.work_exc with
  | none => .completed
  | some e => .failedCaught e

/-- One worker draining a queue of items in order, in the exception monad:
an uncaught exception in the loop body would abort the remaining items. -/
def worker_drain (items : List DispatchItem) : Except PyErr (List ItemOutcome) :=
  match items with
  | [] => .ok []
  | item :: rest => do
    let o := run_item item
    let os ← worker_drain rest
    .ok (o :: os)

/-! Worker-pool interleaving model for per-key mutual exclusion
(`EventDispatcher._worker`).  A worker that dequeues an item carrying a
`session_id` acquires the per-key `asyncio.Lock` before running the work
body and releases it afterwards; unkeyed items run without a lock. -/

/-- A work body currently executing on some worker. -/
inductive WorkerPhase where
  | runningKeyed (key : Int)
  | runningUnkeyed
deriving Repr, DecidableEq

/-- Interleaving state of the worker pool: which per-key locks are held
and which work bodies are currently executing. -/
structure PoolState where
  locks : List Int
  running : List WorkerPhase
deriving Repr, DecidableEq

/-- Atomic transitions of the worker pool.  A keyed item's work body can
only begin once the per-key lock is free (`async with lock`); finishing a
keyed body releases the lock. -/
inductive PoolStep : PoolState → PoolState → Prop where
  | beginKeyed (s : PoolState) (k : Int) (h : k ∉ s.locks) :
      PoolStep s ⟨k :: s.locks, .runningKeyed k :: s.running⟩
  | beginUnkeyed (s : PoolState) :
      PoolStep s ⟨s.locks, .runningUnkeyed :: s.running⟩
  | finishKeyed (s : PoolState) (pre post : List WorkerPhase) (k : Int)
      (h : s.running = pre ++ .runningKeyed k :: post) :
      PoolStep s ⟨s.locks.erase k, pre ++ post⟩
  | finishUnkeyed (s : PoolState) (pre post : List WorkerPhase)
      (h : s.running = pre ++ .runningUnkeyed :: post) :
      PoolStep s ⟨s.locks, pre ++ post⟩

/-- Pool states reachable from the idle pool (no locks held, nothing running). -/
def PoolReachable (s : PoolState) : Prop :=
  Relation.ReflTransGen PoolStep ⟨[], []⟩ s

/-! ## src/session.py — permission broker -/

/-- `DEFAULT_ALLOWED_TOOLS` from src/session.py. -/
def DEFAULT_ALLOWED_TOOLS : List String :=
  ["Read", "Write", "Edit", "Bash", "Glob", "Grep", "Task", "WebSearch",
   "Skill", "mcp__telegram-tools__send_to_telegram"]

/-- Process-wide broker state: the `pending_permissions` table (request id
to the waiting future, identified by an abstract handle; the optional
logger entry carries no logic) and the contents of the persisted
`tool_allowlist.json`. -/
structure PermState where
  pending_permissions : List (String × Nat)
  allowlist : List String
deriving Repr, DecidableEq

/-- `load_allowlist` from src/session.py: reads the persisted set. -/
def load_allowlist (s : PermState) : List String :=
  s.allowlist

/-- `add_to_allowlist` from src/session.py: set insertion into the
persisted allowlist. -/
def add_to_allowlist (s : PermState) (tool_name : String) : PermState :=
  { s with
    allowlist :=
      if tool_name ∈ s.allowlist then s.allowlist else s.allowlist ++ [tool_name] }

/-- `is_tool_allowed` from src/session.py. -/
def is_tool_allowed (s : PermState) (tool_name : String) : Bool :=
  if tool_name ∈ DEFAULT_ALLOWED_TOOLS then true
  else decide (tool_name ∈ load_allowlist s)

/-- Result of one `resolve_permission` call: the returned boolean, the
`set_result` delivery (future handle and decision) if any, and the updated
broker state. -/
structure ResolveResult where
  returned : Bool
  delivered : Option (Nat × Bool)
  state : PermState
deriving Repr, DecidableEq

/-- `resolve_permission` from src/session.py: pops the pending entry; an
unknown id logs a warning and returns `False`; otherwise the tool is
persisted when `always and tool_name` is truthy, the decision is delivered
to the popped future, and `True` is returned. -/
def resolve_permission (s : PermState) (request_id : String) (allowed : Bool)
    (always : Bool) (tool_name : Option String) : ResolveResult :=
  match dict_get s.pending_permissions request_id with
  | none => ⟨false, none, s⟩
  | some fut =>
    let s1 : PermState :=
      { s with pending_permissions := dict_remove s.pending_permissions request_id }
    let s2 : PermState :=
      if always && py_truthy_str tool_name then
        add_to_allowlist s1 (tool_name.getD "")
      else s1
    ⟨true, some (fut, allowed), s2⟩

/-! ## src/core/session_actor.py — SessionActor -/

/-- The fields of the backend `claude_session` object that
`SessionActor` reads or writes (src/session.py, `ClaudeSession`). -/
structure ClaudeSessionModel where
  pending_image_path : Option String
  thread_id : Option Int
  contextual_commands : List String
deriving Repr, DecidableEq

/-- Mutable state of a `SessionActor` (src/core/session_actor.py).
`has_current_task` is `current_task is not None`;
`has_pending_permission` likewise for `pending_permission`. -/
structure ActorState where
  session_key : String
  generation_id : Nat
  active : Bool
  has_current_task : Bool
  has_pending_permission : Bool
  stats : SessionStats
  claude_session : ClaudeSessionModel
deriving Repr, DecidableEq

/-- Observable events emitted while the run loop handles one trigger. -/
inductive ActorEvent where
  | interrupted (gen : Nat)
  | turnStarted (gen : Nat) (prompt : String)
deriving Repr, DecidableEq

/-- Environment of one run-loop iteration: outcomes of the calls the
actor makes into external collaborators.
`current_task_done` is the value of `current_task.done()` at dequeue time;
`get_command_prompt` is the command registry (src/commands.py);
`start_task_ok` tells whether `session.start_claude_task` returns a task;
`handler_exc` injects an exception raised by turn handling for a given
prompt (caught at the run-loop boundary). -/
structure ActorEnv where
  current_task_done : Bool
  get_command_prompt : String → List String → Option String
  start_task_ok : Bool
  handler_exc : String → Option PyErr

/-- Python `str.strip()` on the default whitespace set (spelled out over
the character list so that it computes by structural recursion). -/
def strip (s : String) : String :=
  ⟨((s.data.dropWhile Char.isWhitespace).reverse.dropWhile Char.isWhitespace).reverse⟩

/-- Python `str.startswith(pre)`. -/
def py_startsWith (s pre : String) : Bool :=
  pre.data.isPrefixOf s.data

/-- `prompt.split()[0].lstrip("/").split("@")[0]` from `_handle_prompt`:
first whitespace-delimited token, leading slashes removed, part before
the first `@`. -/
def command_name_of (prompt : String) : String :=
  let tok := (prompt.data.dropWhile Char.isWhitespace).takeWhile (fun c => !c.isWhitespace)
  let stripped := tok.dropWhile (fun ch => ch = '/')
  ⟨stripped.takeWhile (fun ch => ch ≠ '@')⟩

/-- The media-assembly block of `SessionActor._handle_prompt` (pending
image prepend, then new-image prepend), acting on the session's buffered
image and the prompt text.  Both `if pending_image:` and
`if prompt.strip()` are Python truthiness tests. -/
def assemble_prompt (cs : ClaudeSessionModel) (prompt : String) (images : List String) :
    ClaudeSessionModel × String :=
  let step1 : ClaudeSessionModel × String :=
    match cs.pending_image_path with
    | some pending =>
      if pending ≠ "" then
        ({ cs with pending_image_path := none },
          if strip prompt ≠ "" then pending ++ "\n\n" ++ prompt else pending)
      else (cs, prompt)
    | none => (cs, prompt)
  let cs1 := step1.1
  let prompt1 := step1.2
  if images ≠ [] then
    let image_block := String.intercalate "\n" images
    (cs1, if strip prompt1 ≠ "" then image_block ++ "\n\n" ++ prompt1 else image_block)
  else (cs1, prompt1)

/-- The slash-command block of `_handle_prompt`: `none` means the function
returned early (platform-owned command with empty substitute, handled
actor-side without starting a turn); `some p` is the effective prompt. -/
def resolve_command (env : ActorEnv) (cs : ClaudeSessionModel) (prompt : String) :
    Option String :=
  if py_startsWith prompt "/" then
    match env.get_command_prompt (command_name_of prompt) cs.contextual_commands with
    | some cp => if cp = "" then none else some cp
    | none => some prompt
  else some prompt

/-- `SessionActor._handle_prompt`.  Returns the updated actor state and
the events emitted (a `turnStarted` exactly when `start_claude_task`
produced a task that became `current_task`). -/
def handle_prompt (env : ActorEnv) (s : ActorState) (prompt : String)
    (images : List String) (gen_id : Nat) : ActorState × List ActorEvent :=
  if strip prompt = "" ∧ images = [] then (s, [])
  else if images ≠ [] ∧ strip prompt = "" then
    ({ s with claude_session.pending_image_path := some (images.headD "") }, [])
  else
    let a := assemble_prompt s.claude_session prompt images
    let s1 : ActorState := { s with claude_session := a.1 }
    match resolve_command env s1.claude_session a.2 with
    | none => (s1, [])
    | some prompt2 =>
      let s2 : ActorState :=
        { s1 with stats.message_count := s1.stats.message_count + 1 }
      match s2.claude_session.thread_id with
      | none => (s2, [])
      | some _ =>
        if env.start_task_ok then
          ({ s2 with has_current_task := true }, [ActorEvent.turnStarted gen_id prompt2])
        else
          ({ s2 with stats.error_count := s2.stats.error_count + 1 }, [])

/-- The body of one `SessionActor._run_loop` iteration (the code inside
the `try`), returning the state reached, the events emitted, and the
exception escaping to the loop boundary, if any.  The interrupt branch
bumps the generation, records the interrupt, and `_cancel_current_task`
clears `current_task` and cancels any pending permission wait. -/
def run_loop_body (env : ActorEnv) (s0 : ActorState) (t : Trigger) :
    ActorState × List ActorEvent × Option PyErr :=
  let phase1 : ActorState × List ActorEvent :=
    if s0.has_current_task && !env.current_task_done then
      ({ s0 with
          generation_id := s0.generation_id + 1,
          stats.interrupt_count := s0.stats.interrupt_count + 1,
          has_current_task := false,
          has_pending_permission := false },
        [ActorEvent.interrupted (s0.generation_id + 1)])
    else (s0, [])
  let s1 := phase1.1
  let s2 : ActorState := { s1 with generation_id := s1.generation_id + 1 }
  match env.handler_exc t.prompt with
  | some e => (s2, phase1.2, some e)
  | none =>
    let r := handle_prompt env s2 t.prompt t.images s2.generation_id
    (r.1, phase1.2 ++ r.2, none)

/-- One `_run_loop` iteration with the loop-boundary `except` applied: an
escaping exception increments the error counter and is swallowed. -/
def run_loop_step (env : ActorEnv) (s : ActorState) (t : Trigger) :
    ActorState × List ActorEvent :=
  let r := run_loop_body env s t
  match r.2.2 with
  | none => (r.1, r.2.1)
  | some _ =>
    ({ r.1 with stats.error_count := r.1.stats.error_count + 1 }, r.2.1)

/-- The single consumer run loop draining a mailbox prefix in arrival
order, concatenating the emitted events. -/
def run_mailbox (env : ActorEnv) (s : ActorState) :
    List Trigger → ActorState × List ActorEvent
  | [] => (s, [])
  | t :: ts =>
    let r1 := run_loop_step env s t
    let r2 := run_mailbox env r1.1 ts
    (r2.1, r1.2 ++ r2.2)

/-! ## src/core/dispatcher.py — Dispatcher (coordinator / session registry) -/

/-- A registered transport listener, modelled by the outcomes of the two
calls the coordinator makes into it for a given trigger:
`resolve_cwd` (which may raise) and `create_session` (which may raise). -/
structure ListenerModel where
  platform : String
  resolve_cwd_exc : Option PyErr
  resolve_cwd_value : Option String
  create_session_exc : Option PyErr
  create_session_value : Nat
deriving Repr, DecidableEq

/-- A record in the durable session store consulted at creation time. -/
structure PersistedSession where
  cwd : Option String
  claude_session_id : Option String
deriving Repr, DecidableEq

/-- Environment of the coordinator: registered listeners by platform and
the durable session store contents. -/
structure CoordEnv where
  listeners : List (String × ListenerModel)
  store : List (String × PersistedSession)
deriving Repr, DecidableEq

/-- The `SessionActor` constructed by `Dispatcher._create_session`
(identity of the backend handle and restored backend session id kept). -/
structure CreatedActor where
  session_key : String
  platform : String
  cwd : String
  backend : Nat
  restored_session_id : Option String
deriving Repr, DecidableEq

/-- State of the coordinator: the sessions map and, per key, the triggers
enqueued to that actor's mailbox so far. -/
structure CoordState where
  sessions : List (String × CreatedActor)
  mailboxes : List (String × List Trigger)
deriving Repr, DecidableEq

/-- Append a trigger to one key's mailbox (`SessionActor.enqueue`). -/
def mailbox_append (l : List (String × List Trigger)) (k : String) (t : Trigger) :
    List (String × List Trigger) :=
  match l with
  | [] => [(k, [t])]
  | (k2, ts) :: rest =>
    if k2 = k then (k2, ts ++ [t]) :: rest else (k2, ts) :: mailbox_append rest k t

/-- `Dispatcher._resolve_cwd`: the trigger's reply-context `"cwd"` wins if
truthy; otherwise the listener's `resolve_cwd` is tried, its exceptions
caught and mapped to `None`. -/
def coord_resolve_cwd (listener : ListenerModel) (t : Trigger) : Option String :=
  match t.reply_context_cwd with
  | some c =>
    if c ≠ "" then some c
    else
      match listener.resolve_cwd_exc with
      | some _ => none
      | none => listener.resolve_cwd_value
  | none =>
    match listener.resolve_cwd_exc with
    | some _ => none
    | none => listener.resolve_cwd_value

/-- `Dispatcher._create_session`: raises `ValueError` when no listener is
registered for the trigger's platform; returns `None` (with a warning)
when no truthy cwd can be resolved; otherwise creates the backend session
(whose exception propagates) and restores a persisted backend session id
when the persisted record has a truthy cwd. -/
def coord_create_session (env : CoordEnv) (t : Trigger) :
    Except PyErr (Option CreatedActor) :=
  match dict_get env.listeners t.platform with
  | none => .error (.valueError (s!"No listener for platform: {t.platform}"))
  | some listener =>
    match coord_resolve_cwd listener t with
    | none => .ok none
    | some c =>
      if c = "" then .ok none
      else
        match listener.create_session_exc with
        | some e => .error e
        | none =>
          let restored : Option String :=
            match dict_get env.store t.session_key with
            | some p =>
              if py_truthy_str p.cwd then p.claude_session_id else none
            | none => none
          .ok (some
            { session_key := t.session_key
              platform := t.platform
              cwd := c
              backend := listener.create_session_value
              restored_session_id := restored })

/-- How `Dispatcher.route_trigger` disposed of the trigger. -/
inductive RouteOutcome where
  | enqueued
  | droppedCreationError (e : PyErr)
  | droppedNoCwd
deriving Repr, DecidableEq

/-- `Dispatcher.route_trigger`: under the creation lock, lazily creates
and registers the actor for an unseen key — creation failures are caught
(the trigger is dropped, the map untouched) — then enqueues the trigger
onto the resolved actor.  The `Except` layer would carry any exception
escaping to the caller; the catch around `_create_session` means none
does. -/
def route_trigger (st : CoordState) (env : CoordEnv) (t : Trigger) :
    Except PyErr (CoordState × RouteOutcome) :=
  match dict_get st.sessions t.session_key with
  | some _ =>
    .ok ({ st with mailboxes := mailbox_append st.mailboxes t.session_key t },
      .enqueued)
  | none =>
    match coord_create_session env t with
    | .error e => .ok (st, .droppedCreationError e)
    | .ok none => .ok (st, .droppedNoCwd)
    | .ok (some actor) =>
      .ok
        ({ sessions := st.sessions ++ [(t.session_key, actor)]
           mailboxes := mailbox_append st.mailboxes t.session_key t },
          .enqueued)

/-! ## Concrete scenario inputs -/

/-- Actor environment for the interrupt-mid-turn scenario: the first turn
never finishes on its own, no slash-commands are registered, the backend
starts tasks successfully, and no exception is injected. -/
def scenario_env : ActorEnv :=
  { current_task_done := false
    get_command_prompt := fun _ _ => none
    start_task_ok := true
    handler_exc := fun _ => none }

/-- A freshly created actor: generation 0, no running turn, zero stats. -/
def initial_actor : ActorState :=
  { session_key := "telegram:1"
    generation_id := 0
    active := true
    has_current_task := false
    has_pending_permission := false
    stats := ⟨0, 0, 0, 0⟩
    claude_session := ⟨none, some 7, []⟩ }

/-- First scenario trigger: a long task whose turn never finishes. -/
def trig_long : Trigger :=
  ⟨"telegram", "telegram:1", "long task", [], none, "user"⟩

/-- Second scenario trigger, arriving while the first turn still runs. -/
def trig_stop : Trigger :=
  ⟨"telegram", "telegram:1", "stop now", [], none, "user"⟩

/-- Backpressure-scenario item: every item provides an `on_drop` callback. -/
def bp_item (n : String) : DispatchItem := ⟨n, some 1, none, true⟩

/-- Backpressure-scenario dispatcher: `max_queue=2`, `warn=1`, queue empty,
workers paused (no dequeues happen between the three enqueues). -/
def bp_state0 : DispatcherState := ⟨dispatcher_init 4 2 1, [], 0⟩

/-! ## Association-list lemmas (Python `dict` semantics) -/

theorem dict_get_of_not_mem {α : Type} (l : List (String × α)) (k : String)
    (h : k ∉ l.map Prod.fst) : dict_get l k = none := by
  induction l with
  | nil => rfl
  | cons hd tl ih =>
    obtain ⟨k2, v⟩ := hd
    simp only [List.map_cons, List.mem_cons, not_or] at h
    simp only [dict_get]
    rw [if_neg (by exact fun hk => h.1 hk.symm), ih h.2]

theorem dict_get_remove_self {α : Type} (l : List (String × α)) (k : String)
    (h : (l.map Prod.fst).Nodup) : dict_get (dict_remove l k) k = none := by
  induction l with
  | nil => rfl
  | cons hd tl ih =>
    obtain ⟨k2, v⟩ := hd
    simp only [List.map_cons, List.nodup_cons] at h
    simp only [dict_remove]
    by_cases hk : k2 = k
    · rw [if_pos hk]
      exact dict_get_of_not_mem tl k (by rw [← hk]; exact h.1)
    · rw [if_neg hk]
      simp only [dict_get]
      rw [if_neg hk]
      exact ih h.2

theorem dict_get_remove_ne {α : Type} (l : List (String × α)) (k k2 : String)
    (h : k2 ≠ k) : dict_get (dict_remove l k) k2 = dict_get l k2 := by
  induction l with
  | nil => rfl
  | cons hd tl ih =>
    obtain ⟨k3, v⟩ := hd
    simp only [dict_remove, dict_get]
    by_cases hk : k3 = k
    · rw [if_pos hk, if_neg (by rw [hk]; exact fun hh => h hh.symm)]
    · rw [if_neg hk]
      simp only [dict_get]
      by_cases hk2 : k3 = k2
      · rw [if_pos hk2, if_pos hk2]
      · rw [if_neg hk2, if_neg hk2, ih]

theorem dict_get_append_self {α : Type} (l : List (String × α)) (k : String) (v : α)
    (h : dict_get l k = none) : dict_get (l ++ [(k, v)]) k = some v := by
  induction l with
  | nil => simp [dict_get]
  | cons hd tl ih =>
    obtain ⟨k2, w⟩ := hd
    simp only [dict_get] at h
    by_cases hk : k2 = k
    · rw [if_pos hk] at h; exact absurd h (by simp)
    · rw [if_neg hk] at h
      simp only [List.cons_append, dict_get]
      rw [if_neg hk]
      exact ih h

/-! ## Claim theorems -/

/-- C10: for every telegram chat id `c`, a thread id of `0` produces the
same session key as no thread id at all (`"telegram:{c}"`), because the
falsy thread id is treated as absent; any platform other than `telegram`
or `discord` raises `ValueError`. -/
theorem c10_session_key_thread_zero :
    (∀ c : Int,
        make_session_key "telegram" ⟨some c, some 0, none⟩ =
          make_session_key "telegram" ⟨some c, none, none⟩ ∧
        make_session_key "telegram" ⟨some c, some 0, none⟩ = .ok (s!"telegram:{c}")) ∧
    (∀ (p : String) (ids : SessionIds), p ≠ "telegram" → p ≠ "discord" →
        make_session_key p ids = .error (.valueError (s!"Unknown platform: {p}"))) := by
  constructor
  · intro c
    constructor <;> simp [make_session_key]
  · intro p ids h1 h2
    simp [make_session_key, h1, h2]

/-- Witness for C10 at chat id `5` and at the unknown platform `"slack"`. -/
theorem c10_session_key_thread_zero_witness :
    make_session_key "telegram" ⟨some 5, some 0, none⟩ =
      make_session_key "telegram" ⟨some 5, none, none⟩ ∧
    make_session_key "slack" ⟨some 5, none, none⟩ =
      .error (.valueError "Unknown platform: slack") := by
  refine ⟨(c10_session_key_thread_zero.1 5).1, ?_⟩
  have h := c10_session_key_thread_zero.2 "slack" ⟨some 5, none, none⟩
    (by decide) (by decide)
  simpa using h

/-- C9: `EventDispatcher.__init__` clamps `worker_count`, `max_queue_size`
and `warn_queue_size` to at least 1 for every combination of constructor
arguments, so even with zero or negative configuration there is at least
one worker, a positive warning threshold, and queue capacity for at least
one item: the first enqueue on an empty queue returns `True`. -/
theorem c9_config_clamping :
    ∀ worker_count max_queue_size warn_queue_size : Int,
      1 ≤ (dispatcher_init worker_count max_queue_size warn_queue_size).worker_count ∧
      1 ≤ (dispatcher_init worker_count max_queue_size warn_queue_size).max_queue_size ∧
      1 ≤ (dispatcher_init worker_count max_queue_size warn_queue_size).warn_queue_size ∧
      ∀ item : DispatchItem,
        (enqueue ⟨dispatcher_init worker_count max_queue_size warn_queue_size, [], 0⟩
          item).1 = true := by
  intro wc mq wq
  refine ⟨le_max_left 1 wc, le_max_left 1 mq, le_max_left 1 wq, ?_⟩
  intro item
  have h1 : (0 : Int) < max 1 mq := lt_of_lt_of_le zero_lt_one (le_max_left 1 mq)
  simp [enqueue, put_nowait, dispatcher_init, h1]

/-- C3: `enqueue` returns `True` exactly while the bounded queue has free
space; on a full queue it returns `False` (no exception reaches the
caller), leaves the queue unchanged, and schedules the dropped item's
`on_drop` callback exactly once when provided; with `max_queue=2` and no
worker draining, three back-to-back enqueues yield `True, True, False`
with one drop callback scheduled. -/
theorem c3_backpressure :
    (∀ (s : DispatcherState) (item : DispatchItem),
        (enqueue s item).1 = true ↔ (s.queue.length : Int) < s.config.max_queue_size) ∧
    (∀ (s : DispatcherState) (item : DispatchItem),
        ¬ (s.queue.length : Int) < s.config.max_queue_size →
          (enqueue s item).1 = false ∧
          (enqueue s item).2.queue = s.queue ∧
          (enqueue s item).2.drops_scheduled =
            s.drops_scheduled + (if item.has_on_drop then 1 else 0)) ∧
    ((enqueue bp_state0 (bp_item "a")).1 = true ∧
      (enqueue (enqueue bp_state0 (bp_item "a")).2 (bp_item "b")).1 = true ∧
      (enqueue (enqueue (enqueue bp_state0 (bp_item "a")).2 (bp_item "b")).2
        (bp_item "c")).1 = false ∧
      (enqueue (enqueue (enqueue bp_state0 (bp_item "a")).2 (bp_item "b")).2
        (bp_item "c")).2.drops_scheduled = 1) := by
  refine ⟨?_, ?_, by decide⟩
  · intro s item
    by_cases h : (s.queue.length : Int) < s.config.max_queue_size
    · simp [enqueue, put_nowait, h]
    · simp [enqueue, put_nowait, h]
  · intro s item h
    simp [enqueue, put_nowait, h]

/-- Witness for C3's full-queue conjunct at a concrete saturated queue. -/
theorem c3_backpressure_witness :
    (enqueue ⟨dispatcher_init 4 1 1, [bp_item "a"], 0⟩ (bp_item "b")).1 = false ∧
    (enqueue ⟨dispatcher_init 4 1 1, [bp_item "a"], 0⟩ (bp_item "b")).2.queue =
      [bp_item "a"] ∧
    (enqueue ⟨dispatcher_init 4 1 1, [bp_item "a"], 0⟩ (bp_item "b")).2.drops_scheduled =
      0 + (if (bp_item "b").has_on_drop then 1 else 0) := by
  have h := c3_backpressure.2.1 ⟨dispatcher_init 4 1 1, [bp_item "a"], 0⟩ (bp_item "b")
    (by decide)
  exact ⟨h.1, h.2.1, h.2.2⟩

theorem resolve_permission_pending_found (s : PermState) (rid : String) (fut : Nat)
    (a al : Bool) (tn : Option String)
    (h : dict_get s.pending_permissions rid = some fut) :
    resolve_permission s rid a al tn =
      ⟨true, some (fut, a),
        { pending_permissions := dict_remove s.pending_permissions rid
          allowlist :=
            if al && py_truthy_str tn then
              (add_to_allowlist
                ⟨dict_remove s.pending_permissions rid, s.allowlist⟩
                (tn.getD "")).allowlist
            else s.allowlist }⟩ := by
  simp only [resolve_permission, h]
  by_cases hc : al && py_truthy_str tn
  · simp [hc, add_to_allowlist]
  · simp [hc]

/-- C4: for every request id with a pending wait in the process-wide
table, the first `resolve_permission` call removes the entry, delivers the
decision to that entry's future, and returns `True`; a second call with
the same id, or any call with an unknown id, returns `False` without
delivering a result, raising, or modifying other pending entries. -/
theorem c4_exactly_once_resolution :
    ∀ (s : PermState) (rid : String) (fut : Nat) (a1 a2 al1 al2 : Bool)
      (tn1 tn2 : Option String),
      (s.pending_permissions.map Prod.fst).Nodup →
      dict_get s.pending_permissions rid = some fut →
      (resolve_permission s rid a1 al1 tn1).returned = true ∧
      (resolve_permission s rid a1 al1 tn1).delivered = some (fut, a1) ∧
      dict_get (resolve_permission s rid a1 al1 tn1).state.pending_permissions rid =
        none ∧
      (∀ rid2, rid2 ≠ rid →
        dict_get (resolve_permission s rid a1 al1 tn1).state.pending_permissions rid2 =
          dict_get s.pending_permissions rid2) ∧
      resolve_permission (resolve_permission s rid a1 al1 tn1).state rid a2 al2 tn2 =
        ⟨false, none, (resolve_permission s rid a1 al1 tn1).state⟩ ∧
      (∀ rid3, dict_get s.pending_permissions rid3 = none →
        resolve_permission s rid3 a2 al2 tn2 = ⟨false, none, s⟩) := by
  intro s rid fut a1 a2 al1 al2 tn1 tn2 hnodup hget
  rw [resolve_permission_pending_found s rid fut a1 al1 tn1 hget]
  have hremoved :
      dict_get (dict_remove s.pending_permissions rid) rid = none :=
    dict_get_remove_self s.pending_permissions rid hnodup
  refine ⟨rfl, rfl, hremoved, ?_, ?_, ?_⟩
  · intro rid2 h2
    exact dict_get_remove_ne s.pending_permissions rid rid2 h2
  · simp only [resolve_permission, hremoved]
  · intro rid3 h3
    simp only [resolve_permission, h3]

/-- Witness for C4 at a one-entry table. -/
theorem c4_exactly_once_resolution_witness :
    (resolve_permission ⟨[("abc123", 9)], []⟩ "abc123" true false none).returned =
      true ∧
    (resolve_permission ⟨[("abc123", 9)], []⟩ "abc123" true false none).delivered =
      some (9, true) ∧
    resolve_permission
        (resolve_permission ⟨[("abc123", 9)], []⟩ "abc123" true false none).state
        "abc123" false false none =
      ⟨false, none,
        (resolve_permission ⟨[("abc123", 9)], []⟩ "abc123" true false none).state⟩ := by
  have h := c4_exactly_once_resolution ⟨[("abc123", 9)], []⟩ "abc123" 9 true false
    false false none none (by decide) (by decide)
  exact ⟨h.1, h.2.1, h.2.2.2.2.1⟩

/-- Counterexample to C5 as stated: with the empty tool name,
`resolve_permission(id, allowed=True, always=True, tool_name="")` succeeds
for a pending request, yet `""` is not added to the allow-list (the
`always and tool_name` truthiness test fails) and a subsequent
`is_tool_allowed("")` still returns `False`. -/
theorem c5_allowlist_counterexample :
    (resolve_permission ⟨[("abc123", 0)], []⟩ "abc123" true true (some "")).returned =
      true ∧
    (resolve_permission ⟨[("abc123", 0)], []⟩ "abc123" true true
      (some "")).state.allowlist = [] ∧
    is_tool_allowed
      (resolve_permission ⟨[("abc123", 0)], []⟩ "abc123" true true (some "")).state ""
      = false := by
  decide

/-- C5 (amended): `is_tool_allowed t` returns `True` exactly when `t` is
in the fixed default set or in the persisted allow-list; after
`resolve_permission(id, allowed=True, always=True, tool_name=t)` succeeds
for a pending request with a **non-empty** tool name `t`, `t` is in the
durable allow-list and a subsequent `is_tool_allowed t` returns `True`
without any new request; resolving with `always=False` leaves the
allow-list unchanged. -/
theorem c5_allowlist_always_persists :
    (∀ (s : PermState) (t : String),
        is_tool_allowed s t = true ↔ (t ∈ DEFAULT_ALLOWED_TOOLS ∨ t ∈ s.allowlist)) ∧
    (∀ (s : PermState) (rid : String) (fut : Nat) (t : String),
        t ≠ "" →
        dict_get s.pending_permissions rid = some fut →
        (resolve_permission s rid true true (some t)).returned = true ∧
        t ∈ (resolve_permission s rid true true (some t)).state.allowlist ∧
        is_tool_allowed (resolve_permission s rid true true (some t)).state t = true) ∧
    (∀ (s : PermState) (rid : String) (a : Bool) (tn : Option String),
        (resolve_permission s rid a false tn).state.allowlist = s.allowlist) := by
  refine ⟨?_, ?_, ?_⟩
  · intro s t
    by_cases hd : t ∈ DEFAULT_ALLOWED_TOOLS
    · simp [is_tool_allowed, hd]
    · simp [is_tool_allowed, load_allowlist, hd]
  · intro s rid fut t ht hget
    rw [resolve_permission_pending_found s rid fut true true (some t) hget]
    have htr : py_truthy_str (some t) = true := by
      simp [py_truthy_str, ht]
    have hmem :
        t ∈ (if true && py_truthy_str (some t) then
            (add_to_allowlist ⟨dict_remove s.pending_permissions rid, s.allowlist⟩
              ((some t).getD "")).allowlist
          else s.allowlist) := by
      rw [htr]
      simp only [Bool.and_self, if_pos]
      by_cases hin : t ∈ s.allowlist
      · simp [add_to_allowlist, hin]
      · simp [add_to_allowlist, hin]
    refine ⟨rfl, hmem, ?_⟩
    simp only [is_tool_allowed, load_allowlist]
    by_cases hd : t ∈ DEFAULT_ALLOWED_TOOLS
    · simp [hd]
    · simpa [hd] using hmem
  · intro s rid a tn
    simp only [resolve_permission]
    cases h : dict_get s.pending_permissions rid <;> simp

/-- Witness for C5 (amended) with the tool `"WebFetch"` pending as
`"abc123"`. -/
theorem c5_allowlist_always_persists_witness :
    is_tool_allowed
      (resolve_permission ⟨[("abc123", 0)], []⟩ "abc123" true true
        (some "WebFetch")).state "WebFetch" = true ∧
    (resolve_permission ⟨[("abc123", 0)], []⟩ "abc123" false false
      (some "WebFetch")).state.allowlist = [] := by
  have h := c5_allowlist_always_persists.2.1 ⟨[("abc123", 0)], []⟩ "abc123" 0
    "WebFetch" (by decide) (by decide)
  exact ⟨h.2.2, c5_allowlist_always_persists.2.2 ⟨[("abc123", 0)], []⟩ "abc123" false
    (some "WebFetch")⟩

/-- C6: for a trigger whose conversation key has no registered actor, if
actor creation fails — the working directory is unresolvable, or the
backend `create_session` raises — `route_trigger` drops the trigger
without raising (the result is `.ok` with a dropped outcome) and the
sessions map is left unchanged, so the key remains unregistered and a
later trigger for the same key re-attempts creation from scratch (and
registers the actor once creation succeeds). -/
theorem c6_creation_failure_atomicity :
    ∀ (st : CoordState) (env : CoordEnv) (t : Trigger) (listener : ListenerModel),
      dict_get st.sessions t.session_key = none →
      dict_get env.listeners t.platform = some listener →
      ((coord_resolve_cwd listener t = none ∨ coord_resolve_cwd listener t = some "") →
        route_trigger st env t = .ok (st, .droppedNoCwd)) ∧
      (∀ (c : String) (e : PyErr),
        coord_resolve_cwd listener t = some c → c ≠ "" →
        listener.create_session_exc = some e →
        route_trigger st env t = .ok (st, .droppedCreationError e)) ∧
      (∀ (env2 : CoordEnv) (a : CreatedActor),
        coord_create_session env2 t = .ok (some a) →
        ∃ st2 : CoordState,
          route_trigger st env2 t = .ok (st2, .enqueued) ∧
          dict_get st2.sessions t.session_key = some a) := by
  intro st env t listener hnone hlist
  refine ⟨?_, ?_, ?_⟩
  · intro hcwd
    have hcreate : coord_create_session env t = .ok none := by
      simp only [coord_create_session, hlist]
      rcases hcwd with h | h <;> simp [h]
    simp [route_trigger, hnone, hcreate]
  · intro c e hc hcne hexc
    have hcreate : coord_create_session env t = .error e := by
      simp only [coord_create_session, hlist, hc]
      rw [if_neg hcne]
      simp [hexc]
    simp [route_trigger, hnone, hcreate]
  · intro env2 a hcreate
    refine ⟨⟨st.sessions ++ [(t.session_key, a)],
        mailbox_append st.mailboxes t.session_key t⟩, ?_, ?_⟩
    · simp [route_trigger, hnone, hcreate]
    · exact dict_get_append_self st.sessions t.session_key a hnone

/-- Witness for C6: empty registry, a listener whose backend session
creation raises, then a later successful environment for the same key. -/
theorem c6_creation_failure_atomicity_witness :
    route_trigger ⟨[], []⟩
        ⟨[("telegram", ⟨"telegram", none, some "/work", some (.other "boom"), 3⟩)], []⟩
        trig_long =
      .ok (⟨[], []⟩, .droppedCreationError (.other "boom")) ∧
    ∃ st2 : CoordState,
      route_trigger ⟨[], []⟩
          ⟨[("telegram", ⟨"telegram", none, some "/work", none, 3⟩)], []⟩
          trig_long =
        .ok (st2, .enqueued) ∧
      dict_get st2.sessions trig_long.session_key =
        some ⟨"telegram:1", "telegram", "/work", 3, none⟩ := by
  have h := c6_creation_failure_atomicity ⟨[], []⟩
    ⟨[("telegram", ⟨"telegram", none, some "/work", some (.other "boom"), 3⟩)], []⟩
    trig_long ⟨"telegram", none, some "/work", some (.other "boom"), 3⟩
    (by decide) (by decide)
  refine ⟨h.2.1 "/work" (.other "boom") (by decide) (by decide) (by decide), ?_⟩
  exact h.2.2 ⟨[("telegram", ⟨"telegram", none, some "/work", none, 3⟩)], []⟩
    ⟨"telegram:1", "telegram", "/work", 3, none⟩ (by decide)

/-- C7: prompt assembly in `_handle_prompt` — a media-only trigger buffers
the first media reference on the actor's session and starts no turn;
buffered media is prepended to newly arriving text and the buffer
cleared; media arriving together with text is prepended in full; and a
trigger with no text and no media changes nothing (no turn starts, the
message count is unchanged). -/
theorem c7_prompt_assembly :
    (∀ (env : ActorEnv) (s : ActorState) (prompt : String) (images : List String)
        (gen_id : Nat),
        images ≠ [] → strip prompt = "" →
        handle_prompt env s prompt images gen_id =
          ({ s with claude_session.pending_image_path := some (images.headD "") },
            [])) ∧
    (∀ (cs : ClaudeSessionModel) (prompt p : String),
        cs.pending_image_path = some p → p ≠ "" → strip prompt ≠ "" →
        assemble_prompt cs prompt [] =
          ({ cs with pending_image_path := none }, p ++ "\n\n" ++ prompt)) ∧
    (∀ (cs : ClaudeSessionModel) (prompt : String) (images : List String),
        cs.pending_image_path = none → images ≠ [] → strip prompt ≠ "" →
        assemble_prompt cs prompt images =
          (cs, String.intercalate "\n" images ++ "\n\n" ++ prompt)) ∧
    (∀ (env : ActorEnv) (s : ActorState) (prompt : String) (gen_id : Nat),
        strip prompt = "" →
        handle_prompt env s prompt [] gen_id = (s, [])) := by
  refine ⟨?_, ?_, ?_, ?_⟩
  · intro env s prompt images gen_id h1 h2
    simp [handle_prompt, h1, h2]
  · intro cs prompt p hp hpne hs
    simp [assemble_prompt, hp, hpne, hs]
  · intro cs prompt images hp himg hs
    simp [assemble_prompt, hp, himg, hs]
  · intro env s prompt gen_id h1
    simp [handle_prompt, h1]

/-- Witness for C7: an image-only trigger, then buffered-image text, then
image-with-text, then an empty trigger, at concrete inputs. -/
theorem c7_prompt_assembly_witness :
    handle_prompt scenario_env initial_actor " " ["/tmp/a.jpg"] 1 =
      ({ initial_actor with
          claude_session.pending_image_path := some "/tmp/a.jpg" }, []) ∧
    assemble_prompt ⟨some "/tmp/a.jpg", some 7, []⟩ "describe" [] =
      (⟨none, some 7, []⟩, "/tmp/a.jpg" ++ "\n\n" ++ "describe") ∧
    assemble_prompt ⟨none, some 7, []⟩ "describe" ["/tmp/a.jpg", "/tmp/b.jpg"] =
      (⟨none, some 7, []⟩,
        String.intercalate "\n" ["/tmp/a.jpg", "/tmp/b.jpg"] ++ "\n\n" ++ "describe") ∧
    handle_prompt scenario_env initial_actor "  " [] 1 = (initial_actor, []) := by
  refine ⟨?_, ?_, ?_, ?_⟩
  · exact c7_prompt_assembly.1 scenario_env initial_actor " " ["/tmp/a.jpg"] 1
      (by decide) (by decide)
  · exact c7_prompt_assembly.2.1 ⟨some "/tmp/a.jpg", some 7, []⟩ "describe"
      "/tmp/a.jpg" rfl (by decide) (by decide)
  · exact c7_prompt_assembly.2.2.1 ⟨none, some 7, []⟩ "describe"
      ["/tmp/a.jpg", "/tmp/b.jpg"] rfl (by decide) (by decide)
  · exact c7_prompt_assembly.2.2.2 scenario_env initial_actor "  " 1 (by decide)

theorem handle_prompt_gen_eq (env : ActorEnv) (s : ActorState) (p : String)
    (i : List String) (g : Nat) :
    (handle_prompt env s p i g).1.generation_id = s.generation_id := by
  simp only [handle_prompt]
  repeat' split
  all_goals rfl

theorem handle_prompt_ic_eq (env : ActorEnv) (s : ActorState) (p : String)
    (i : List String) (g : Nat) :
    (handle_prompt env s p i g).1.stats.interrupt_count = s.stats.interrupt_count := by
  simp only [handle_prompt]
  repeat' split
  all_goals rfl

theorem run_loop_step_interrupting (env : ActorEnv) (s : ActorState) (t : Trigger)
    (h : (s.has_current_task && !env.current_task_done) = true) :
    (run_loop_step env s t).1.generation_id = s.generation_id + 2 ∧
    (run_loop_step env s t).1.stats.interrupt_count = s.stats.interrupt_count + 1 := by
  cases hexc : env.handler_exc t.prompt <;>
    simp [run_loop_step, run_loop_body, h, hexc, handle_prompt_gen_eq,
      handle_prompt_ic_eq]

theorem run_loop_step_plain (env : ActorEnv) (s : ActorState) (t : Trigger)
    (h : (s.has_current_task && !env.current_task_done) = false) :
    (run_loop_step env s t).1.generation_id = s.generation_id + 1 ∧
    (run_loop_step env s t).1.stats.interrupt_count = s.stats.interrupt_count := by
  cases hexc : env.handler_exc t.prompt <;>
    simp [run_loop_step, run_loop_body, h, hexc, handle_prompt_gen_eq,
      handle_prompt_ic_eq]

/-- C2: the generation counter of a Session Actor never decreases; a
dequeued trigger advances it by exactly 2 (and the interrupt count by
exactly 1) when a turn is running and not done, and by exactly 1 (with no
interrupt recorded) when no turn is running; in the interrupt-mid-turn
scenario the counter ends at 3 with `interrupt_count = 1`. -/
theorem c2_generation_monotonicity :
    (∀ (env : ActorEnv) (s : ActorState) (t : Trigger),
        s.generation_id ≤ (run_loop_step env s t).1.generation_id) ∧
    (∀ (env : ActorEnv) (s : ActorState) (t : Trigger),
        s.has_current_task = true → env.current_task_done = false →
        (run_loop_step env s t).1.generation_id = s.generation_id + 2 ∧
        (run_loop_step env s t).1.stats.interrupt_count =
          s.stats.interrupt_count + 1) ∧
    (∀ (env : ActorEnv) (s : ActorState) (t : Trigger),
        s.has_current_task = false →
        (run_loop_step env s t).1.generation_id = s.generation_id + 1 ∧
        (run_loop_step env s t).1.stats.interrupt_count =
          s.stats.interrupt_count) ∧
    ((run_mailbox scenario_env initial_actor [trig_long, trig_stop]).1.generation_id =
        3 ∧
      (run_mailbox scenario_env initial_actor
        [trig_long, trig_stop]).1.stats.interrupt_count = 1) := by
  refine ⟨?_, ?_, ?_, by decide⟩
  · intro env s t
    by_cases h : (s.has_current_task && !env.current_task_done) = true
    · have := run_loop_step_interrupting env s t h
      omega
    · have := run_loop_step_plain env s t (by revert h; cases s.has_current_task &&
        !env.current_task_done <;> simp)
      omega
  · intro env s t h1 h2
    exact run_loop_step_interrupting env s t (by rw [h1, h2]; rfl)
  · intro env s t h1
    exact run_loop_step_plain env s t (by rw [h1]; rfl)

/-- Witness for C2 at the concrete scenario states: the second dequeue
interrupts (generation `1 → 3`), a dequeue at rest advances by 1. -/
theorem c2_generation_monotonicity_witness :
    ((run_loop_step scenario_env
        (run_mailbox scenario_env initial_actor [trig_long]).1
        trig_stop).1.generation_id =
      (run_mailbox scenario_env initial_actor [trig_long]).1.generation_id + 2) ∧
    ((run_loop_step scenario_env initial_actor trig_long).1.generation_id =
      initial_actor.generation_id + 1) := by
  refine ⟨?_, ?_⟩
  · exact (c2_generation_monotonicity.2.1 scenario_env
      (run_mailbox scenario_env initial_actor [trig_long]).1 trig_stop
      (by decide) (by decide)).1
  · exact (c2_generation_monotonicity.2.2.1 scenario_env initial_actor trig_long
      (by decide)).1

theorem handle_prompt_err_eq (env : ActorEnv) (s : ActorState) (p : String)
    (i : List String) (g : Nat) (h : env.start_task_ok = true) :
    (handle_prompt env s p i g).1.stats.error_count = s.stats.error_count := by
  simp only [handle_prompt]
  repeat' split
  all_goals simp_all

theorem run_loop_step_err_count (env : ActorEnv) (s : ActorState) (t : Trigger)
    (h : env.start_task_ok = true) :
    (run_loop_step env s t).1.stats.error_count =
      s.stats.error_count +
        (if (env.handler_exc t.prompt).isSome then 1 else 0) := by
  cases hexc : env.handler_exc t.prompt <;>
    by_cases hc : (s.has_current_task && !env.current_task_done) = true <;>
      simp [run_loop_step, run_loop_body, hexc, hc, handle_prompt_err_eq, h]

/-- C8: failure containment — a worker that drains its queue completes
every item even when individual work bodies raise (`_run_item` catches at
the item boundary, so the drain as a whole never errors), and an exception
escaping turn handling in the actor loop increments the error counter by
exactly one and the loop continues: over any mailbox, the final error
count is the initial count plus the number of raising triggers. -/
theorem c8_failure_containment :
    (∀ items : List DispatchItem, worker_drain items = .ok (items.map run_item)) ∧
    (∀ (env : ActorEnv) (s : ActorState) (t : Trigger) (e : PyErr),
        env.handler_exc t.prompt = some e →
        (run_loop_step env s t).1.stats.error_count = s.stats.error_count + 1) ∧
    (∀ (env : ActorEnv) (s : ActorState) (ts : List Trigger),
        env.start_task_ok = true →
        (run_mailbox env s ts).1.stats.error_count =
          s.stats.error_count +
            ts.countP (fun t => (env.handler_exc t.prompt).isSome)) := by
  refine ⟨?_, ?_, ?_⟩
  · intro items
    induction items with
    | nil => rfl
    | cons item rest ih =>
      simp only [worker_drain, List.map_cons, ih]
      rfl
  · intro env s t e hexc
    by_cases hc : (s.has_current_task && !env.current_task_done) = true <;>
      simp [run_loop_step, run_loop_body, hexc, hc]
  · intro env s ts h
    induction ts generalizing s with
    | nil => simp [run_mailbox]
    | cons t rest ih =>
      simp only [run_mailbox, List.countP_cons]
      rw [ih (run_loop_step env s t).1, run_loop_step_err_count env s t h]
      by_cases hp : (env.handler_exc t.prompt).isSome = true
      · simp [hp]
        try omega
      · simp [hp]
        try omega

/-- Witness for C8: a mailbox of two triggers whose handling raises and
one that succeeds adds exactly 2 to the error counter; a single raising
trigger adds exactly 1. -/
theorem c8_failure_containment_witness :
    (run_mailbox
        ⟨false, fun _ _ => none, true,
          fun p => if p = "boom" then some (.other "boom") else none⟩
        initial_actor
        [⟨"telegram", "telegram:1", "boom", [], none, "user"⟩,
          ⟨"telegram", "telegram:1", "ok", [], none, "user"⟩,
          ⟨"telegram", "telegram:1", "boom", [], none, "user"⟩]).1.stats.error_count =
      initial_actor.stats.error_count + 2 ∧
    (run_loop_step
        ⟨false, fun _ _ => none, true,
          fun p => if p = "boom" then some (.other "boom") else none⟩
        initial_actor
        ⟨"telegram", "telegram:1", "boom", [], none, "user"⟩).1.stats.error_count =
      initial_actor.stats.error_count + 1 := by
  constructor
  · have h := c8_failure_containment.2.2
      ⟨false, fun _ _ => none, true,
        fun p => if p = "boom" then some (.other "boom") else none⟩
      initial_actor
      [⟨"telegram", "telegram:1", "boom", [], none, "user"⟩,
        ⟨"telegram", "telegram:1", "ok", [], none, "user"⟩,
        ⟨"telegram", "telegram:1", "boom", [], none, "user"⟩] rfl
    rw [h]
    decide
  · exact c8_failure_containment.2.1
      ⟨false, fun _ _ => none, true,
        fun p => if p = "boom" then some (.other "boom") else none⟩
      initial_actor
      ⟨"telegram", "telegram:1", "boom", [], none, "user"⟩
      (.other "boom") (by decide)

/-- Invariant tying the per-key lock table to the executing work bodies:
lock ownership is unique, and a keyed work body can only be executing
while its key's lock is held. -/
def pool_inv (s : PoolState) : Prop :=
  s.locks.Nodup ∧
  ∀ k : Int,
    s.running.count (WorkerPhase.runningKeyed k) ≤ 1 ∧
    (WorkerPhase.runningKeyed k ∈ s.running → k ∈ s.locks)

theorem pool_inv_init : pool_inv ⟨[], []⟩ := by
  constructor
  · exact List.nodup_nil
  · intro k
    simp

theorem pool_inv_step {a b : PoolState} (hinv : pool_inv a) (hstep : PoolStep a b) :
    pool_inv b := by
  obtain ⟨hnd, hcnt⟩ := hinv
  cases hstep with
  | beginKeyed k hk =>
    refine ⟨List.nodup_cons.mpr ⟨hk, hnd⟩, ?_⟩
    intro k2
    by_cases he : k2 = k
    · subst he
      have hnotmem : WorkerPhase.runningKeyed k2 ∉ a.running :=
        fun hm => hk ((hcnt k2).2 hm)
      constructor
      · rw [List.count_cons_self, List.count_eq_zero.mpr hnotmem]
      · intro _
        exact List.mem_cons_self _ _
    · constructor
      · rw [List.count_cons_of_ne (by simp [he])]
        exact (hcnt k2).1
      · intro hm
        rcases List.mem_cons.mp hm with h1 | h2
        · exact absurd (by injection h1) he
        · exact List.mem_cons_of_mem _ ((hcnt k2).2 h2)
  | beginUnkeyed =>
    refine ⟨hnd, ?_⟩
    intro k2
    constructor
    · rw [List.count_cons_of_ne (by simp)]
      exact (hcnt k2).1
    · intro hm
      rcases List.mem_cons.mp hm with h1 | h2
      · exact absurd h1 (by simp)
      · exact (hcnt k2).2 h2
  | finishKeyed pre post k hrun =>
    refine ⟨hnd.erase k, ?_⟩
    intro k2
    have hold := hcnt k2
    rw [hrun] at hold
    by_cases he : k2 = k
    · subst he
      have hcount : (pre ++ post).count (WorkerPhase.runningKeyed k2) = 0 := by
        have h1 := hold.1
        rw [List.count_append, List.count_cons_self] at h1
        rw [List.count_append]
        omega
      constructor
      · rw [hcount]
        omega
      · intro hm
        exact absurd (List.count_eq_zero.mp hcount) (by simp [hm])
    · constructor
      · have h1 := hold.1
        rw [List.count_append, List.count_cons_of_ne (by simp [he])] at h1
        rw [List.count_append]
        exact h1
      · intro hm
        have hmem : WorkerPhase.runningKeyed k2 ∈ pre ++ WorkerPhase.runningKeyed k :: post := by
          rcases List.mem_append.mp hm with h1 | h2
          · exact List.mem_append.mpr (Or.inl h1)
          · exact List.mem_append.mpr (Or.inr (List.mem_cons_of_mem _ h2))
        exact (List.mem_erase_of_ne (by simp [he])).mpr (hold.2 hmem)
  | finishUnkeyed pre post hrun =>
    refine ⟨hnd, ?_⟩
    intro k2
    have hold := hcnt k2
    rw [hrun] at hold
    constructor
    · have h1 := hold.1
      rw [List.count_append, List.count_cons_of_ne (by simp)] at h1
      rw [List.count_append]
      exact h1
    · intro hm
      have hmem : WorkerPhase.runningKeyed k2 ∈ pre ++ WorkerPhase.runningUnkeyed :: post := by
        rcases List.mem_append.mp hm with h1 | h2
        · exact List.mem_append.mpr (Or.inl h1)
        · exact List.mem_append.mpr (Or.inr (List.mem_cons_of_mem _ h2))
      exact hold.2 hmem

theorem pool_reachable_inv (s : PoolState) (h : PoolReachable s) : pool_inv s := by
  induction h with
  | refl => exact pool_inv_init
  | tail _ hstep ih => exact pool_inv_step ih hstep

/-- C1: per-conversation serialization — in every reachable worker-pool
state at most one work body per serialization key is executing (each
worker holds the per-key mutex while running a keyed item); on one
Session Actor the single consumer loop processes triggers strictly in
mailbox arrival order (the events of the first trigger precede those of
the rest), and in the two-trigger scenario the first turn is interrupted,
with the generation advanced, strictly before the second turn starts. -/
theorem c1_per_conversation_serialization :
    (∀ s : PoolState, PoolReachable s →
        ∀ k : Int, s.running.count (WorkerPhase.runningKeyed k) ≤ 1) ∧
    (∀ (env : ActorEnv) (s : ActorState) (t1 : Trigger) (ts : List Trigger),
        (run_mailbox env s (t1 :: ts)).2 =
          (run_loop_step env s t1).2 ++
            (run_mailbox env (run_loop_step env s t1).1 ts).2) ∧
    ((run_mailbox scenario_env initial_actor [trig_long, trig_stop]).2 =
      [ActorEvent.turnStarted 1 "long task", ActorEvent.interrupted 2,
        ActorEvent.turnStarted 3 "stop now"]) := by
  refine ⟨?_, ?_, by decide⟩
  · intro s h k
    exact ((pool_reachable_inv s h).2 k).1
  · intro env s t1 ts
    simp [run_mailbox]

/-- Witness for C1's mutual-exclusion conjunct at a concrete reachable
state: one worker is running the keyed item for conversation 5. -/
theorem c1_per_conversation_serialization_witness :
    PoolReachable ⟨[5], [WorkerPhase.runningKeyed 5]⟩ ∧
    List.count (WorkerPhase.runningKeyed 5)
      (PoolState.running ⟨[5], [WorkerPhase.runningKeyed 5]⟩) ≤ 1 := by
  have hreach : PoolReachable ⟨[5], [WorkerPhase.runningKeyed 5]⟩ :=
    Relation.ReflTransGen.single (PoolStep.beginKeyed ⟨[], []⟩ 5 (by simp))
  exact ⟨hreach, c1_per_conversation_serialization.1 _ hreach 5⟩
